import Mathlib

/-!
Verification of the smartcall-easyapo appointment automation against its
natural-language specification.  The definitions below are a shallow
embedding of the TypeScript source (src/src/pages/AppointPage.ts, second
document, and the persistent server in src/unnamed/part_000): pure
functions become Lean functions, and every remote interaction (day data,
treatment-item list, located reservation, submission responses) becomes an
explicit input of the embedded function.  JavaScript semantics that matter
are modelled explicitly: string comparison is lexicographic on code
points, `||`/truthiness treats the empty string and the number 0 as
falsy, `??` only treats null/undefined as missing, and parseInt may
produce NaN (modelled as `none`).
-/

namespace EasyApo

/-! ## JavaScript primitives -/

/-- Lexicographic code-point comparison of character lists, the order JS
uses for `<` on strings (all strings in this program are BMP, so code
units and code points agree). -/
def jsCharsLt : List Char → List Char → Bool
  | _, [] => false
  | [], _ :: _ => true
  | a :: as, b :: bs =>
    if a.toNat < b.toNat then true
    else if a.toNat == b.toNat then jsCharsLt as bs
    else false

/-- JS `a < b` on strings. -/
def jsStrLt (a b : String) : Bool := jsCharsLt a.data b.data

/-- JS `a >= b` on strings (total order, so it is the negation of `<`). -/
def jsStrGe (a b : String) : Bool := !(jsStrLt a b)

/-- Does `needle` occur at the head of `hay`? -/
def leadsWith : List Char → List Char → Bool
  | [], _ => true
  | _ :: _, [] => false
  | a :: as, b :: bs => a == b && leadsWith as bs

/-- Does `needle` occur anywhere in `hay`? -/
def containsChars (needle : List Char) : List Char → Bool
  | [] => leadsWith needle []
  | a :: t => leadsWith needle (a :: t) || containsChars needle t

/-- JS `hay.includes(needle)` on strings. -/
def jsIncludes (hay needle : String) : Bool := containsChars needle.data hay.data

/-- JS truthiness of an optional string: undefined and the empty string are falsy. -/
def strTruthy : Option String → Bool
  | some s => s != ""
  | none => false

/-- JS `o || fallback` for an optional string. -/
def jsStrOr (o : Option String) (fallback : String) : String :=
  match o with
  | some s => if s != "" then s else fallback
  | none => fallback

/-- JS `o || fallback` for an optional number (0 is falsy). -/
def jsNumOr (o : Option Int) (fallback : Int) : Int :=
  match o with
  | some x => if x != 0 then x else fallback
  | none => fallback

/-- JS `String(n).padStart(2, '0')` for a number `n`. -/
def padStart2 (n : Int) : String :=
  let s := toString n
  String.mk (List.replicate (2 - s.length) '0' ++ s.data)

/-- `Math.ceil(a / b)` for integers with `b > 0` (ceiling division). -/
def mathCeilDiv (a b : Int) : Int := -((-a).ediv b)

/-- The leading decimal digits of a character list. -/
def leadingDigits : List Char → List Char
  | [] => []
  | c :: cs => if c.isDigit then c :: leadingDigits cs else []

/-- Numeric value of a digit list. -/
def digitsToNat (ds : List Char) : Nat :=
  ds.foldl (fun acc c => acc * 10 + (c.toNat - 48)) 0

/-- JS `parseInt(s, 10)`: optional sign followed by leading decimal digits;
`none` models NaN (no digits). -/
def jsParseInt (s : String) : Option Int :=
  let cs := s.data.dropWhile (fun c => c == ' ')
  match cs with
  | '-' :: rest =>
    let ds := leadingDigits rest
    if ds.isEmpty then none else some (-(digitsToNat ds : Int))
  | '+' :: rest =>
    let ds := leadingDigits rest
    if ds.isEmpty then none else some ((digitsToNat ds : Int))
  | _ =>
    let ds := leadingDigits cs
    if ds.isEmpty then none else some ((digitsToNat ds : Int))

/-- Remove the first occurrence of a character (JS `s.replace(c, '')`,
which replaces only the first occurrence). -/
def removeFirstChar (c : Char) : List Char → List Char
  | [] => []
  | a :: as => if a == c then as else a :: removeFirstChar c as

/-- `timeFrom.replace(':', '')` as used in findAvailableStaff. -/
def removeFirstColon (s : String) : String := String.mk (removeFirstChar ':' s.data)

/-! ## Data model (src/src/types/easyapo.d.ts), restricted to the fields
the embedded functions read. -/

/-- One 15-minute grid cell of the clinic day (TimeRow). -/
structure TimeRow where
  hour : String
  minute : String
  time_text : String
  time_num : String
  is_break_time : Bool
  is_night_break_time : Bool
deriving Repr, DecidableEq

/-- A bookable resource/staff column (ColumnRow). -/
structure ColumnRow where
  id : Int
  name : String
deriving Repr, DecidableEq

/-- An existing booking occupying one column over the half-open interval
`[time_from_num, time_to_num)` (ReserveRow); `cancel = 1` marks a
cancelled booking. -/
structure ReserveRow where
  id : Int
  column_no : Int
  cancel : Int
  time_from : String
  time_to : String
  time_from_num : String
  time_to_num : String
deriving Repr, DecidableEq

/-- The day data read from the ReserveDay component by getReserveDayData
(closed-day calendars, used only by the per-range day loop, are omitted). -/
structure DayData where
  reserve_rows : List ReserveRow
  column_rows : List ColumnRow
  time_rows : List TimeRow
  start_hour : Int
  start_minute : Int
  end_hour : Int
  end_minute : Int
deriving Repr, DecidableEq

/-- A treatment menu definition (TreatmentItem). -/
structure TreatmentItem where
  id : Int
  title : String
  color : String
  treatment_time : Int
  use_column : List Int
  resources : List String
deriving Repr, DecidableEq

/-- Caller-supplied menu information.  The HTTP handlers in
src/unnamed/part_000 always populate both fields with strings (using ''
for an absent value), so the fields are plain strings and JS truthiness
is the non-empty test. -/
structure MenuInfo where
  external_menu_id : String
  menu_name : String
deriving Repr, DecidableEq

/-- The externally visible unit of availability (SlotInfo). -/
structure SlotInfo where
  date : String
  time : String
  duration_min : Int
  stock : Nat
  resource_name : String
deriving Repr, DecidableEq

/-! ## Availability scan (AppointPage.ts lines 1850-2073) -/

/-- isBreakTime (lines 1850-1852). -/
def isBreakTime (t : TimeRow) : Bool := t.is_break_time || t.is_night_break_time

/-- timeRowToMinutes (lines 1857-1859): `parseInt(hour) * 60 + parseInt(minute)`;
`none` models NaN. -/
def timeRowToMinutes (t : TimeRow) : Option Int :=
  match jsParseInt t.hour, jsParseInt t.minute with
  | some h, some m => some (h * 60 + m)
  | _, _ => none

/-- The spacing test `nextMinutes - currentMinutes !== 15` (negated): a NaN
difference compares unequal to 15 in JS. -/
def diffIs15 (cur next : Option Int) : Bool :=
  match cur, next with
  | some c, some n => n - c == 15
  | _, _ => false

/-- areSlotsConsecutive (lines 1869-1892): the cells
`[startIndex, startIndex + requiredSlots)` all exist, none is a break
cell, and each consecutive pair is exactly 15 minutes apart. -/
def areSlotsConsecutive (timeRows : List TimeRow) : Nat → Nat → Bool
  | _, 0 => true
  | startIndex, k + 1 =>
    match timeRows[startIndex]? with
    | none => false
    | some t =>
      if isBreakTime t then false
      else if k == 0 then true
      else
        match timeRows[startIndex + 1]? with
        | none => false
        | some t2 =>
          if diffIs15 (timeRowToMinutes t) (timeRowToMinutes t2) then
            areSlotsConsecutive timeRows (startIndex + 1) k
          else false

/-- The per-reservation conflict test inside isStaffAvailable
(lines 1919-1925): the booking is on this column, is not cancelled, and
its half-open interval contains the slot time. -/
def reservationBlocks (column : ColumnRow) (slotTime : String) (r : ReserveRow) : Bool :=
  if r.column_no != column.id then false
  else if r.cancel == 1 then false
  else jsStrGe slotTime r.time_from_num && jsStrLt slotTime r.time_to_num

/-- `reserveRows.some(...)` inside isStaffAvailable (lines 1919-1925). -/
def hasConflict (column : ColumnRow) (checkTimeRow : TimeRow) (reserveRows : List ReserveRow) : Bool :=
  reserveRows.any (reservationBlocks column checkTimeRow.time_num)

/-- isStaffAvailable (lines 1904-1931). -/
def isStaffAvailable (column : ColumnRow) (timeRows : List TimeRow)
    (startIndex requiredSlots : Nat) (reserveRows : List ReserveRow) : Bool :=
  if !areSlotsConsecutive timeRows startIndex requiredSlots then false
  else
    (List.range requiredSlots).all fun j =>
      match timeRows[startIndex + j]? with
      | none => true
      | some t => !hasConflict column t reserveRows

/-- Operating-day start in HHMM form (line 1957). -/
def dayStartTimeNum (dd : DayData) : String :=
  padStart2 dd.start_hour ++ padStart2 dd.start_minute

/-- Operating-day end in HHMM form (line 1958). -/
def dayEndTimeNum (dd : DayData) : String :=
  padStart2 dd.end_hour ++ padStart2 dd.end_minute

/-- The grid cells inside operating hours (lines 1964-1966). -/
def operatingTimeRows (dd : DayData) : List TimeRow :=
  dd.time_rows.filter fun t =>
    jsStrGe t.time_num (dayStartTimeNum dd) && jsStrLt t.time_num (dayEndTimeNum dd)

/-- The columns minus the always-excluded emergency column (lines 1945-1947). -/
def nonEmergencyColumns (cols : List ColumnRow) : List ColumnRow :=
  cols.filter fun col => col.name != "急患"

/-- The caller-requested resource narrowing (lines 1950-1954): applied only
when a non-empty list was supplied. -/
def requestedColumns (cols : List ColumnRow) (resources : Option (List String)) : List ColumnRow :=
  match resources with
  | some rs => if rs.length > 0 then cols.filter (fun col => rs.contains col.name) else cols
  | none => cols

/-- requiredSlots inside getAvailableSlotsForDate (line 1961):
`duration ? Math.ceil(duration / 15) : 1`. -/
def gridRequiredSlots (duration : Option Int) : Nat :=
  match duration with
  | some d => if d != 0 then (mathCeilDiv d 15).toNat else 1
  | none => 1

/-- getAvailableSlotsForDate (lines 1936-2002).  `nowDateTimeNum` is the
current Asia/Tokyo wall-clock string in "YYYY-MM-DD HHmm" form (an effect
of dayjs, passed as an input). -/
def getAvailableSlotsForDate (dateStr : String) (dd : DayData)
    (resources : Option (List String)) (duration : Option Int)
    (nowDateTimeNum : String) : List SlotInfo :=
  let availableColumns := requestedColumns (nonEmergencyColumns dd.column_rows) resources
  let requiredSlots := gridRequiredSlots duration
  let timeRows := operatingTimeRows dd
  (List.range timeRows.length).filterMap fun i =>
    match timeRows[i]? with
    | none => none
    | some timeRow =>
      if jsStrLt (dateStr ++ " " ++ timeRow.time_num) nowDateTimeNum then none
      else if isBreakTime timeRow then none
      else
        let availableStaff := (availableColumns.filter fun column =>
          isStaffAvailable column timeRows i requiredSlots dd.reserve_rows).map ColumnRow.name
        if availableStaff.length > 0 then
          some { date := dateStr
                 time := timeRow.time_text
                 duration_min := jsNumOr duration 15
                 stock := availableStaff.length
                 resource_name := String.intercalate "," availableStaff }
        else none

/-! ## Menu resolution and effective filters (lines 2007-2073, 2332-2352) -/

/-- findTreatmentItem (lines 2332-2352).  The remote treatment-item list
(an effect of getTreatmentItems) is an input.  Exact match on the id
string first, then first substring match of the menu name in the titles. -/
def findTreatmentItem (treatmentItems : List TreatmentItem) (menu : Option MenuInfo) :
    Option TreatmentItem :=
  match menu with
  | none => none
  | some m =>
    if m.menu_name == "" && m.external_menu_id == "" then none
    else
      let foundById :=
        if m.external_menu_id != "" then
          treatmentItems.find? fun item => toString item.id == m.external_menu_id
        else none
      match foundById with
      | some item => some item
      | none => treatmentItems.find? fun item => jsIncludes item.title m.menu_name

/-- The effective-resource computation of getAvailableSlots (lines 2023-2034):
intersection when both the caller and the menu constrain resources, else
whichever is given. -/
def effectiveSlotsResources (resources : Option (List String))
    (matchedItem : Option TreatmentItem) : Option (List String) :=
  match matchedItem with
  | some item =>
    if item.resources.length > 0 then
      match resources with
      | some rs =>
        if rs.length > 0 then some (rs.filter fun r => item.resources.contains r)
        else some item.resources
      | none => some item.resources
    else resources
  | none => resources

/-- The effective-duration computation of getAvailableSlots (lines 2036-2044):
the longer of the caller duration and the menu treatment time when both
are truthy, else whichever is given, defaulting to 45 minutes. -/
def effectiveSlotsDuration (duration : Option Int) (matchedItem : Option TreatmentItem) : Int :=
  let e : Option Int :=
    match matchedItem with
    | some item =>
      if item.treatment_time != 0 then
        some (match duration with
          | some d => if d != 0 then max d item.treatment_time else item.treatment_time
          | none => item.treatment_time)
      else duration
    | none => duration
  e.getD 45

/-! ## Staff search (findAvailableStaff, lines 2619-2667) -/

/-- The menu-eligibility narrowing applied to the candidate columns
(lines 2633-2640): only columns listed in the matched menu's use_column,
when that list is non-empty. -/
def menuEligibleColumns (cols : List ColumnRow) (matchedItem : Option TreatmentItem) :
    List ColumnRow :=
  match matchedItem with
  | some item =>
    if item.use_column.length > 0 then cols.filter fun col => item.use_column.contains col.id
    else cols
  | none => cols

/-- The candidate columns scanned by findAvailableStaff for a day, a
treatment-item list and a menu. -/
def staffSearchColumns (dd : DayData) (treatmentItems : List TreatmentItem)
    (menu : Option MenuInfo) : List ColumnRow :=
  menuEligibleColumns (nonEmergencyColumns dd.column_rows) (findTreatmentItem treatmentItems menu)

/-- requiredSlots inside findAvailableStaff (line 2643): `Math.ceil(durationMin / 15)`. -/
def staffSearchRequiredSlots (durationMin : Int) : Nat := (mathCeilDiv durationMin 15).toNat

/-- The index of the requested start time in the operating grid (lines 2655-2657). -/
def staffSearchStartIndex (dd : DayData) (timeFrom : String) : Option Nat :=
  (operatingTimeRows dd).findIdx? fun tr => tr.time_num == removeFirstColon timeFrom

/-- findAvailableStaff (lines 2619-2667): the first candidate column free
for the whole window, or `none`.  `dayData = none` models
getReserveDayData returning null. -/
def findAvailableStaff (dayData : Option DayData) (treatmentItems : List TreatmentItem)
    (timeFrom : String) (durationMin : Int) (menu : Option MenuInfo) : Option Int :=
  match dayData with
  | none => none
  | some dd =>
    match staffSearchStartIndex dd timeFrom with
    | none => none
    | some startIndex =>
      ((staffSearchColumns dd treatmentItems menu).find? fun column =>
        isStaffAvailable column (operatingTimeRows dd) startIndex
          (staffSearchRequiredSlots durationMin) dd.reserve_rows).map ColumnRow.id

/-! ## Reservation requests and results (AppointPage.ts lines 1578-1620) -/

/-- Staff selection of a reservation request. -/
structure StaffInfo where
  staff_id : String
  preference : String
deriving Repr, DecidableEq

/-- Desired new date/time of an update request (absent fields are none). -/
structure DesiredSlot where
  date : Option String
  time : Option String
deriving Repr, DecidableEq

/-- The slot of a reservation request. -/
structure SlotRequest where
  date : String
  start_at : String
  end_at : Option String
  duration_min : Option Int
  desired : Option DesiredSlot
deriving Repr, DecidableEq

/-- The customer of a reservation request. -/
structure CustomerInfo where
  customer_id : Option String
  name : String
  phone : String
deriving Repr, DecidableEq

/-- One reservation request handed to processReservations. -/
structure ReservationRequest where
  reservation_id : String
  operation : String
  slot : SlotRequest
  customer : CustomerInfo
  menu : Option MenuInfo
  staff : Option StaffInfo
deriving Repr, DecidableEq

/-- Detail part of a reservation result (status is one of success, failed,
conflict). -/
structure ReservationResultDetail where
  status : String
  external_reservation_id : Option String := none
  error_code : Option String := none
  error_message : Option String := none
deriving Repr, DecidableEq

/-- One result row of processReservations. -/
structure ReservationResult where
  reservation_id : String
  operation : String
  result : ReservationResultDetail
deriving Repr, DecidableEq

/-- Outcome of one driver operation: a reservation id or an error message
(the `{reservationId} | {error}` union of the source). -/
inductive OpOutcome where
  | ok (reservationId : String)
  | err (message : String)
deriving Repr, DecidableEq

/-! ## The create arm of processReservations (lines 2683-2754) -/

/-- The staff decision of the create arm: proceed with a column number, or
report the conflict.  The column number is optional because the
`specific` branch parses the caller-supplied staff id with parseInt,
which may produce NaN. -/
inductive CreateDecision where
  | conflict (error_code error_message : String)
  | proceed (columnNo : Option Int)
deriving Repr, DecidableEq

/-- The effective duration of the create arm (lines 2688-2690):
`menuDuration ?? slot.duration_min ?? 45` (nullish coalescing). -/
def createEffectiveDuration (treatmentItems : List TreatmentItem) (req : ReservationRequest) : Int :=
  match (findTreatmentItem treatmentItems req.menu).map TreatmentItem.treatment_time with
  | some t => t
  | none => req.slot.duration_min.getD 45

/-- `staffInfo?.preference || 'any'` (line 2696). -/
def staffPreference (staff : Option StaffInfo) : String :=
  match staff with
  | some s => if s.preference != "" then s.preference else "any"
  | none => "any"

/-- The conflict message of the create arm (line 2716). -/
def noStaffMessage (req : ReservationRequest) (effectiveDuration : Int) : String :=
  "指定時間枠（" ++ req.slot.date ++ " " ++ req.slot.start_at ++ " ～ " ++
    toString effectiveDuration ++ "分 ）に空いている担当者がいません"

/-- The staff resolution of the create arm (lines 2693-2722): a specific
staff id is used as given; otherwise the first free eligible column is
chosen, and a falsy result (null, or a column id of 0) yields the
NO_AVAILABLE_STAFF conflict. -/
def createStaffDecision (dayData : Option DayData) (treatmentItems : List TreatmentItem)
    (req : ReservationRequest) : CreateDecision :=
  let effectiveDuration := createEffectiveDuration treatmentItems req
  if staffPreference req.staff == "specific" &&
      (match req.staff with | some s => s.staff_id != "" | none => false) then
    CreateDecision.proceed (jsParseInt ((req.staff.map StaffInfo.staff_id).getD ""))
  else
    match findAvailableStaff dayData treatmentItems req.slot.start_at effectiveDuration req.menu with
    | some columnId =>
      if columnId != 0 then CreateDecision.proceed (some columnId)
      else CreateDecision.conflict "NO_AVAILABLE_STAFF" (noStaffMessage req effectiveDuration)
    | none => CreateDecision.conflict "NO_AVAILABLE_STAFF" (noStaffMessage req effectiveDuration)

/-- The create arm of processReservations (lines 2683-2754).  The
effectful createReservation call, which only runs after a column was
chosen, is abstracted as `createOutcome`. -/
def processCreateOne (dayData : Option DayData) (treatmentItems : List TreatmentItem)
    (req : ReservationRequest) (createOutcome : Option Int → OpOutcome) : ReservationResult :=
  match createStaffDecision dayData treatmentItems req with
  | CreateDecision.conflict code msg =>
    { reservation_id := req.reservation_id
      operation := "create"
      result := { status := "conflict", error_code := some code, error_message := some msg } }
  | CreateDecision.proceed columnNo =>
    match createOutcome columnNo with
    | OpOutcome.err m =>
      { reservation_id := req.reservation_id
        operation := "create"
        result := { status := "failed", error_message := some m } }
    | OpOutcome.ok rid =>
      { reservation_id := req.reservation_id
        operation := "create"
        result := { status := "success", external_reservation_id := some rid } }

/-! ## Remote mutation responses (ReservationApiResponse) -/

/-- A remote mutating-call response as the code consumes it: the result
flag, the confirmation field (modelled as the parsed JSON string array;
none models null/absent), and the message (modelled as the flattened list
of message strings after the `Object.values(...).flat()` / string
normalisation). -/
structure ApiResp where
  result : Bool
  confirmation : Option (List String)
  message : Option (List String)
deriving Repr, DecidableEq

/-- `messages.join(' ')`. -/
def joinSpace (l : List String) : String := String.intercalate " " l

/-- `messages.join(' ') || fallback` applied to an optional message
(lines 2559-2564, 3129-3134, 3361-3366). -/
def messageOrDefault (msg : Option (List String)) (fallback : String) : String :=
  match msg with
  | none => fallback
  | some l => if joinSpace l == "" then fallback else joinSpace l

/-- The POST-response check of createReservation (lines 2545-2572): a
non-null confirmation fails with the joined confirmation messages, then a
false result flag fails with the remote message; `none` means the
operation proceeds. -/
def createSubmitError (resp : ApiResp) : Option String :=
  match resp.confirmation with
  | some msgs => some (joinSpace msgs)
  | none =>
    if resp.result then none
    else some (messageOrDefault resp.message "予約作成に失敗しました")

/-! ## updateReservation (lines 2945-3267) -/

/-- The remote interactions of one updateReservation run, collected as
inputs: the treatment-item list, the day data visible to the step-5
eligibility search, the day data visible to the conflict-retry search
(after reload and re-selection of the target date), the reservation
located by phone and time (id and column), and the two possible
submission responses. -/
structure UpdateEnv where
  treatmentItems : List TreatmentItem
  dayData : Option DayData
  retryDayData : Option DayData
  foundReservation : Option (String × Int)
  firstResponse : ApiResp
  retryResponse : ApiResp
deriving Repr, DecidableEq

/-- Step 5 of updateReservation (lines 3073-3096): the menu constrains the
columns, the current column is not eligible, and no free eligible column
exists at the original time (a falsy search result, null or column id 0,
also fails). -/
def updateEligibilityFails (env : UpdateEnv) (menu : Option MenuInfo) (time : String)
    (columnNo : Int) : Bool :=
  match findTreatmentItem env.treatmentItems menu with
  | some item =>
    if item.use_column.length > 0 && !(item.use_column.contains columnNo) then
      match findAvailableStaff env.dayData env.treatmentItems time item.treatment_time menu with
      | some sid => !(sid != 0 && item.use_column.contains sid)
      | none => true
    else false
  | none => false

/-- Result of one updateReservation run together with the number of remote
update submissions it performed. -/
structure UpdateOutcome where
  result : OpOutcome
  submitCount : Nat
deriving Repr, DecidableEq

/-- updateReservation (lines 2945-3267) over the collected remote inputs.
After the located reservation passes the menu-eligibility step, the form
is submitted once; a rejection whose message contains 別の予約 while a
desired new date or time was requested triggers the single bounded retry:
the free-staff search at the target date/time (with the same menu
narrowing), and, only when it finds a truthy column, one resubmission
whose response is final. -/
def updateReservation (env : UpdateEnv) (date time : String) (desired : Option DesiredSlot)
    (customerPhone : String) (menu : Option MenuInfo) : UpdateOutcome :=
  let matchedItem := findTreatmentItem env.treatmentItems menu
  let menuTreatmentTime := matchedItem.map TreatmentItem.treatment_time
  match env.foundReservation with
  | none =>
    ⟨OpOutcome.err ("予約が見つかりません: " ++ date ++ " " ++ time ++ " " ++ customerPhone), 0⟩
  | some (reservationId, columnNo) =>
    if updateEligibilityFails env menu time columnNo then
      ⟨OpOutcome.err ("メニュー「" ++ (matchedItem.map TreatmentItem.title).getD "" ++
        "」は現在の担当者では対応できません。同一時間帯に空いている対応可能な担当者もいません"), 0⟩
    else
      match env.firstResponse.confirmation with
      | some msgs => ⟨OpOutcome.err (joinSpace msgs), 1⟩
      | none =>
        if env.firstResponse.result then ⟨OpOutcome.ok reservationId, 1⟩
        else
          let errorMessage := messageOrDefault env.firstResponse.message "予約更新に失敗しました"
          if jsIncludes errorMessage "別の予約" &&
              (strTruthy (desired.bind DesiredSlot.date) ||
               strTruthy (desired.bind DesiredSlot.time)) then
            let targetTime := jsStrOr (desired.bind DesiredSlot.time) time
            let durationMin := menuTreatmentTime.getD 45
            match findAvailableStaff env.retryDayData env.treatmentItems targetTime durationMin menu with
            | some sid =>
              if sid != 0 then
                if env.retryResponse.result then ⟨OpOutcome.ok reservationId, 2⟩
                else
                  ⟨OpOutcome.err (messageOrDefault env.retryResponse.message
                    "予約更新に失敗しました（再試行後）"), 2⟩
              else ⟨OpOutcome.err (errorMessage ++ "（空いている担当者が見つかりませんでした）"), 1⟩
            | none => ⟨OpOutcome.err (errorMessage ++ "（空いている担当者が見つかりませんでした）"), 1⟩
          else ⟨OpOutcome.err errorMessage, 1⟩

/-- The update arm of processReservations (lines 2755-2783). -/
def processUpdateOne (env : UpdateEnv) (req : ReservationRequest) : ReservationResult :=
  let outcome := updateReservation env req.slot.date req.slot.start_at req.slot.desired
    req.customer.phone req.menu
  match outcome.result with
  | OpOutcome.err m =>
    { reservation_id := req.reservation_id
      operation := "update"
      result := { status := "failed", error_message := some m } }
  | OpOutcome.ok rid =>
    { reservation_id := req.reservation_id
      operation := "update"
      result := { status := "success", external_reservation_id := some rid } }

/-! ## cancelOrDeleteReservation (lines 3286-3379) -/

/-- The decision structure of cancelOrDeleteReservation over the located
reservation and the cancel-POST response: only the result flag of the
response is inspected (the confirmation field is not consulted on this
path). -/
def cancelOrDeleteOutcome (found : Option (String × Int)) (resp : ApiResp)
    (operationName date time customerPhone : String) : OpOutcome :=
  match found with
  | none => OpOutcome.err ("予約が見つかりません: " ++ date ++ " " ++ time ++ " " ++ customerPhone)
  | some (reservationId, _) =>
    if resp.result then OpOutcome.ok reservationId
    else OpOutcome.err (messageOrDefault resp.message ("予約" ++ operationName ++ "に失敗しました"))

/-! ## Persistent server: session manager publication (src/unnamed/part_000)
and the /slots menu parameter -/

/-- Login credentials. -/
structure Credentials where
  loginKey : String
  loginPassword : String
deriving Repr, DecidableEq

/-- A BrowserSessionManager as visible to ensureSessionManager: the
credentials it was constructed with and whether its start() completed. -/
structure SessionManagerModel where
  creds : Credentials
  started : Bool
deriving Repr, DecidableEq

/-- The module-level mutable state of the server: the current session
manager and the stored current credentials. -/
structure ServerState where
  sessionManager : Option SessionManagerModel
  currentCredentials : Option Credentials
deriving Repr, DecidableEq

/-- hasCredentialsChanged (part_000 lines 112-123). -/
def hasCredentialsChanged (st : ServerState) (c : Credentials) : Bool :=
  match st.currentCredentials with
  | none => true
  | some cur => cur.loginKey != c.loginKey || cur.loginPassword != c.loginPassword

/-- ensureSessionManager (part_000 lines 129-179), run under the init
mutex.  `startOk` tells whether the new manager's start() succeeds; the
returned flag is false exactly when start() throws and the error
propagates to the caller.  The source assigns the newly constructed
manager to the module variable (line 157) before calling start()
(line 169), and stores the credentials (line 172) only after start()
returns, which this function mirrors. -/
def ensureSessionManager (st : ServerState) (c : Credentials) (startOk : Bool) :
    ServerState × Bool :=
  if hasCredentialsChanged st c then
    let newMgr : SessionManagerModel := { creds := c, started := false }
    if startOk then
      ({ sessionManager := some { newMgr with started := true }, currentCredentials := some c },
        true)
    else
      ({ sessionManager := some newMgr, currentCredentials := st.currentCredentials }, false)
  else (st, true)

/-- The menu parameter built by GET /slots (part_000 lines 272-275).  The
source passes external_menu_id through unchanged (possibly undefined) and
defaults menu_name with `|| ''`; findTreatmentItem only tests the id for
truthiness before using it, so an undefined id is represented by the
equally falsy empty string. -/
def slotsMenuParam (external_menu_id menu_name : Option String) : Option MenuInfo :=
  if strTruthy external_menu_id || strTruthy menu_name then
    some { external_menu_id := external_menu_id.getD "", menu_name := menu_name.getD "" }
  else none

/-! ## Bridging lemmas: the JS comparators agree with the lexicographic
order on strings -/

theorem charToNat_strictMono : StrictMono Char.toNat := fun _ _ hab => hab

theorem charToNat_inj {a b : Char} (h : a.toNat = b.toNat) : a = b :=
  charToNat_strictMono.injective h

theorem jsCharsLt_iff : ∀ as bs : List Char, jsCharsLt as bs = true ↔ List.Lex (· < ·) as bs
  | as, [] => by
    constructor
    · intro h
      cases as <;> simp [jsCharsLt] at h
    · intro h
      exact absurd h (List.Lex.not_nil_right _ _)
  | [], _ :: _ => by
    simp only [jsCharsLt, true_iff]
    exact List.Lex.nil
  | a :: as, b :: bs => by
    simp only [jsCharsLt]
    by_cases hlt : a.toNat < b.toNat
    · simp only [hlt, if_true, true_iff]
      exact List.Lex.rel hlt
    · simp only [hlt, if_false]
      by_cases heqn : a.toNat = b.toNat
      · have hab : a = b := charToNat_inj heqn
        subst hab
        simp only [beq_self_eq_true, if_true]
        rw [jsCharsLt_iff as bs]
        constructor
        · exact List.Lex.cons
        · intro h
          cases h with
          | cons h => exact h
          | rel h => exact absurd h hlt
      · rw [if_neg (by simpa using heqn)]
        simp only [Bool.false_eq_true, false_iff]
        intro h
        cases h with
        | cons h => exact heqn rfl
        | rel h => exact hlt h

theorem jsStrLt_iff (a b : String) : jsStrLt a b = true ↔ a < b := by
  rw [String.lt_iff_toList_lt]
  exact jsCharsLt_iff a.data b.data

theorem jsStrLt_eq_false_iff (a b : String) : jsStrLt a b = false ↔ b ≤ a := by
  rw [← not_lt, ← jsStrLt_iff]
  cases jsStrLt a b <;> simp

theorem jsStrGe_iff (a b : String) : jsStrGe a b = true ↔ b ≤ a := by
  rw [jsStrGe, Bool.not_eq_true', jsStrLt_eq_false_iff]

theorem containsChars_nil : ∀ hay : List Char, containsChars [] hay = true
  | [] => rfl
  | _ :: t => by simp [containsChars, leadsWith, containsChars_nil t]

/-- JS `hay.includes('')` is always true. -/
theorem jsIncludes_empty (s : String) : jsIncludes s "" = true :=
  containsChars_nil s.data

/-! ## Availability-scan lemmas -/

theorem areSlotsConsecutive_spec :
    ∀ (n : Nat) (timeRows : List TimeRow) (i : Nat),
      areSlotsConsecutive timeRows i n = true →
      ∀ k, k < n → ∃ u, timeRows[i + k]? = some u ∧ isBreakTime u = false ∧
        (k + 1 < n → ∃ v mu mv, timeRows[i + k + 1]? = some v ∧
          timeRowToMinutes u = some mu ∧ timeRowToMinutes v = some mv ∧ mv - mu = 15)
  | 0, _, _, _, k, hk => absurd hk (Nat.not_lt_zero k)
  | 1, timeRows, i, h, k, hk => by
    have hk0 : k = 0 := Nat.lt_one_iff.mp hk
    subst hk0
    cases hcell : timeRows[i]? with
    | none => simp [areSlotsConsecutive, hcell] at h
    | some t =>
      by_cases hb : isBreakTime t = true
      · simp [areSlotsConsecutive, hcell, hb] at h
      · exact ⟨t, by simpa using hcell, Bool.eq_false_iff.mpr hb, by omega⟩
  | (m+2), timeRows, i, h, k, hk => by
    have hstep : ∃ t t2, timeRows[i]? = some t ∧ isBreakTime t = false ∧
        timeRows[i + 1]? = some t2 ∧
        diffIs15 (timeRowToMinutes t) (timeRowToMinutes t2) = true ∧
        areSlotsConsecutive timeRows (i + 1) (m + 1) = true := by
      cases hcell : timeRows[i]? with
      | none => simp [areSlotsConsecutive, hcell] at h
      | some t =>
        by_cases hb : isBreakTime t = true
        · simp [areSlotsConsecutive, hcell, hb] at h
        · cases hcell2 : timeRows[i + 1]? with
          | none => simp [areSlotsConsecutive, hcell, hcell2, hb] at h
          | some t2 =>
            by_cases hd : diffIs15 (timeRowToMinutes t) (timeRowToMinutes t2) = true
            · refine ⟨t, t2, rfl, Bool.eq_false_iff.mpr hb, rfl, hd, ?_⟩
              simpa [areSlotsConsecutive, hcell, hcell2, hb, hd] using h
            · simp [areSlotsConsecutive, hcell, hcell2, hb, hd] at h
    obtain ⟨t, t2, hcell, hb, hcell2, hd, hrec⟩ := hstep
    cases k with
    | zero =>
      refine ⟨t, by simpa using hcell, hb, fun _ => ?_⟩
      obtain ⟨mu, mv, hmu, hmv, hdiff⟩ : ∃ mu mv, timeRowToMinutes t = some mu ∧
          timeRowToMinutes t2 = some mv ∧ mv - mu = 15 := by
        cases hu : timeRowToMinutes t with
        | none => rw [hu] at hd; exact absurd hd (by simp [diffIs15])
        | some mu =>
          cases hv : timeRowToMinutes t2 with
          | none => rw [hu, hv] at hd; exact absurd hd (by simp [diffIs15])
          | some mv =>
            rw [hu, hv] at hd
            simp only [diffIs15, beq_iff_eq] at hd
            exact ⟨mu, mv, rfl, rfl, hd⟩
      exact ⟨t2, mu, mv, by simpa using hcell2, hmu, hmv, hdiff⟩
    | succ k' =>
      have := areSlotsConsecutive_spec (m+1) timeRows (i+1) hrec k' (by omega)
      obtain ⟨u, hu, hub, hnext⟩ := this
      have hidx : i + 1 + k' = i + (k' + 1) := by omega
      rw [hidx] at hu
      refine ⟨u, hu, hub, fun hk1 => ?_⟩
      obtain ⟨v, mu, mv, hv, hmu, hmv, hdiff⟩ := hnext (by omega)
      have hidx2 : i + 1 + k' + 1 = i + (k' + 1) + 1 := by omega
      rw [hidx2] at hv
      exact ⟨v, mu, mv, hv, hmu, hmv, hdiff⟩

theorem isStaffAvailable_spec (column : ColumnRow) (timeRows : List TimeRow)
    (i n : Nat) (reserveRows : List ReserveRow)
    (h : isStaffAvailable column timeRows i n reserveRows = true) :
    areSlotsConsecutive timeRows i n = true ∧
    ∀ k, k < n → ∀ t, timeRows[i + k]? = some t → hasConflict column t reserveRows = false := by
  rw [isStaffAvailable] at h
  by_cases hcons : areSlotsConsecutive timeRows i n = true
  · rw [hcons] at h
    simp only [Bool.not_true, if_false, Bool.false_eq_true, if_neg, List.all_eq_true] at h
    refine ⟨hcons, fun k hk t ht => ?_⟩
    have := h k (List.mem_range.mpr hk)
    rw [ht] at this
    simpa using this
  · rw [Bool.eq_false_iff.mpr hcons] at h
    exact absurd h (by simp)

theorem isStaffAvailable_false_of_conflict (column : ColumnRow) (timeRows : List TimeRow)
    (i n : Nat) (reserveRows : List ReserveRow) (k : Nat) (hk : k < n) (t : TimeRow)
    (ht : timeRows[i + k]? = some t) (hc : hasConflict column t reserveRows = true) :
    isStaffAvailable column timeRows i n reserveRows = false := by
  cases hsa : isStaffAvailable column timeRows i n reserveRows with
  | false => rfl
  | true =>
    obtain ⟨-, hnoc⟩ := isStaffAvailable_spec column timeRows i n reserveRows hsa
    rw [hnoc k hk t ht] at hc
    exact absurd hc (by simp)

theorem reservationBlocks_iff (column : ColumnRow) (s : String) (r : ReserveRow) :
    reservationBlocks column s r = true ↔
      r.column_no = column.id ∧ r.cancel ≠ 1 ∧ r.time_from_num ≤ s ∧ s < r.time_to_num := by
  rw [reservationBlocks]
  by_cases h1 : r.column_no = column.id
  · rw [if_neg (by simp [h1])]
    by_cases h2 : r.cancel = 1
    · rw [if_pos (by simp [h2])]
      simp [h2]
    · rw [if_neg (by simp [h2])]
      rw [Bool.and_eq_true, jsStrGe_iff, jsStrLt_iff]
      simp [h1, h2]
  · rw [if_pos (by simp [h1])]
    simp [h1]

theorem hasConflict_iff (column : ColumnRow) (cell : TimeRow) (rows : List ReserveRow) :
    hasConflict column cell rows = true ↔
      ∃ r ∈ rows, r.column_no = column.id ∧ r.cancel ≠ 1 ∧
        r.time_from_num ≤ cell.time_num ∧ cell.time_num < r.time_to_num := by
  rw [hasConflict, List.any_eq_true]
  constructor
  · rintro ⟨r, hr, hb⟩
    exact ⟨r, hr, (reservationBlocks_iff column cell.time_num r).mp hb⟩
  · rintro ⟨r, hr, hb⟩
    exact ⟨r, hr, (reservationBlocks_iff column cell.time_num r).mpr hb⟩

theorem hasConflict_eq_false_iff (column : ColumnRow) (cell : TimeRow) (rows : List ReserveRow) :
    hasConflict column cell rows = false ↔
      ∀ r ∈ rows, r.column_no = column.id → r.cancel ≠ 1 →
        ¬(r.time_from_num ≤ cell.time_num ∧ cell.time_num < r.time_to_num) := by
  rw [← Bool.not_eq_true, hasConflict_iff]
  constructor
  · intro h r hr h1 h2 h3
    exact h ⟨r, hr, h1, h2, h3.1, h3.2⟩
  · rintro h ⟨r, hr, h1, h2, h3, h4⟩
    exact h r hr h1 h2 ⟨h3, h4⟩

/-! ## findAvailableStaff lemmas -/

theorem findAvailableStaff_of_idx_none (dd : DayData) (items : List TreatmentItem)
    (timeFrom : String) (dur : Int) (menu : Option MenuInfo)
    (hidx : staffSearchStartIndex dd timeFrom = none) :
    findAvailableStaff (some dd) items timeFrom dur menu = none := by
  rw [findAvailableStaff, hidx]

theorem findAvailableStaff_of_idx_some (dd : DayData) (items : List TreatmentItem)
    (timeFrom : String) (dur : Int) (menu : Option MenuInfo) (i : Nat)
    (hidx : staffSearchStartIndex dd timeFrom = some i) :
    findAvailableStaff (some dd) items timeFrom dur menu =
      ((staffSearchColumns dd items menu).find? fun column =>
        isStaffAvailable column (operatingTimeRows dd) i (staffSearchRequiredSlots dur)
          dd.reserve_rows).map ColumnRow.id := by
  rw [findAvailableStaff, hidx]

theorem findAvailableStaff_some (dd : DayData) (items : List TreatmentItem)
    (timeFrom : String) (dur : Int) (menu : Option MenuInfo) (c : Int)
    (h : findAvailableStaff (some dd) items timeFrom dur menu = some c) :
    ∃ i, staffSearchStartIndex dd timeFrom = some i ∧
      ∃ col ∈ staffSearchColumns dd items menu, col.id = c ∧
        isStaffAvailable col (operatingTimeRows dd) i (staffSearchRequiredSlots dur)
          dd.reserve_rows = true := by
  cases hidx : staffSearchStartIndex dd timeFrom with
  | none =>
    rw [findAvailableStaff_of_idx_none dd items timeFrom dur menu hidx] at h
    exact absurd h (by simp)
  | some i =>
    rw [findAvailableStaff_of_idx_some dd items timeFrom dur menu i hidx] at h
    cases hfind : (staffSearchColumns dd items menu).find? fun column =>
        isStaffAvailable column (operatingTimeRows dd) i (staffSearchRequiredSlots dur)
          dd.reserve_rows with
    | none => rw [hfind] at h; exact absurd h (by simp)
    | some col =>
      rw [hfind] at h
      simp at h
      have hp := List.find?_some hfind
      simp only [] at hp
      exact ⟨i, rfl, col, List.mem_of_find?_eq_some hfind, h, hp⟩

theorem findAvailableStaff_none (dd : DayData) (items : List TreatmentItem)
    (timeFrom : String) (dur : Int) (menu : Option MenuInfo) (i : Nat)
    (hidx : staffSearchStartIndex dd timeFrom = some i)
    (hall : ∀ col ∈ staffSearchColumns dd items menu,
      isStaffAvailable col (operatingTimeRows dd) i (staffSearchRequiredSlots dur)
        dd.reserve_rows = false) :
    findAvailableStaff (some dd) items timeFrom dur menu = none := by
  rw [findAvailableStaff_of_idx_some dd items timeFrom dur menu i hidx]
  have hnone : ((staffSearchColumns dd items menu).find? fun column =>
      isStaffAvailable column (operatingTimeRows dd) i (staffSearchRequiredSlots dur)
        dd.reserve_rows) = none := by
    rw [List.find?_eq_none]
    intro col hcol
    simp [hall col hcol]
  rw [hnone]
  rfl

/-! ## Claim C1 -/

/-- C1: For every create request processed by processReservations with staff
preference any (or no staff_id), the automatically chosen resource, if one
is chosen, has no overlapping active (non-cancelled) existing booking
across all required 15-minute cells of the effective duration; and if
every eligible resource is blocked (has such an overlap) at the requested
date and start time, the returned ReservationResult has status conflict
with error_code NO_AVAILABLE_STAFF. -/
theorem c1_create_any_no_overlap_or_conflict
    (dd : DayData) (items : List TreatmentItem) (req : ReservationRequest)
    (createOutcome : Option Int → OpOutcome)
    (hany : staffPreference req.staff ≠ "specific" ∨
      (req.staff.map StaffInfo.staff_id).getD "" = "") :
    (∀ c : Int, createStaffDecision (some dd) items req = CreateDecision.proceed (some c) →
      ∃ i, staffSearchStartIndex dd req.slot.start_at = some i ∧
        ∃ col ∈ staffSearchColumns dd items req.menu, col.id = c ∧
          ∀ k, k < staffSearchRequiredSlots (createEffectiveDuration items req) →
            ∀ t, (operatingTimeRows dd)[i + k]? = some t →
              ∀ r ∈ dd.reserve_rows, r.column_no = c → r.cancel ≠ 1 →
                ¬(r.time_from_num ≤ t.time_num ∧ t.time_num < r.time_to_num)) ∧
    (∀ i, staffSearchStartIndex dd req.slot.start_at = some i →
      (∀ col ∈ staffSearchColumns dd items req.menu,
        ∃ k, k < staffSearchRequiredSlots (createEffectiveDuration items req) ∧
          ∃ t, (operatingTimeRows dd)[i + k]? = some t ∧
            ∃ r ∈ dd.reserve_rows, r.column_no = col.id ∧ r.cancel ≠ 1 ∧
              r.time_from_num ≤ t.time_num ∧ t.time_num < r.time_to_num) →
      (processCreateOne (some dd) items req createOutcome).result.status = "conflict" ∧
      (processCreateOne (some dd) items req createOutcome).result.error_code =
        some "NO_AVAILABLE_STAFF") := by
  have hcond : (staffPreference req.staff == "specific" &&
      (match req.staff with | some s => s.staff_id != "" | none => false)) = false := by
    rcases hany with h | h
    · simp [h]
    · cases hs : req.staff with
      | none => simp
      | some s =>
        rw [hs] at h
        simp at h
        simp [h]
  constructor
  · intro c hc
    cases hfs : findAvailableStaff (some dd) items req.slot.start_at
        (createEffectiveDuration items req) req.menu with
    | none => simp [createStaffDecision, hcond, hfs] at hc
    | some cid =>
      simp only [createStaffDecision, hcond, Bool.false_eq_true, if_false, hfs] at hc
      by_cases h0 : cid = 0
      · subst h0
        simp at hc
      · rw [if_pos (by simpa using h0)] at hc
        have hcc : cid = c := by simpa using hc
        subst hcc
        obtain ⟨i, hidx, col, hcolmem, hcolid, hsa⟩ :=
          findAvailableStaff_some dd items req.slot.start_at
            (createEffectiveDuration items req) req.menu cid hfs
        obtain ⟨-, hnoc⟩ := isStaffAvailable_spec col (operatingTimeRows dd) i
          (staffSearchRequiredSlots (createEffectiveDuration items req)) dd.reserve_rows hsa
        refine ⟨i, hidx, col, hcolmem, hcolid, fun k hk t ht r hr h1 h2 => ?_⟩
        have hcf := hnoc k hk t ht
        rw [hasConflict_eq_false_iff] at hcf
        exact hcf r hr (h1.trans hcolid.symm) h2
  · intro i hidx hall
    have hfsnone : findAvailableStaff (some dd) items req.slot.start_at
        (createEffectiveDuration items req) req.menu = none := by
      apply findAvailableStaff_none dd items req.slot.start_at
        (createEffectiveDuration items req) req.menu i hidx
      intro col hcol
      obtain ⟨k, hk, t, ht, r, hr, h1, h2, h3, h4⟩ := hall col hcol
      exact isStaffAvailable_false_of_conflict col (operatingTimeRows dd) i
        (staffSearchRequiredSlots (createEffectiveDuration items req)) dd.reserve_rows k hk t ht
        ((hasConflict_iff col t dd.reserve_rows).mpr ⟨r, hr, h1, h2, h3, h4⟩)
    have hdec : createStaffDecision (some dd) items req =
        CreateDecision.conflict "NO_AVAILABLE_STAFF"
          (noStaffMessage req (createEffectiveDuration items req)) := by
      simp [createStaffDecision, hcond, hfsnone]
    rw [processCreateOne, hdec]
    exact ⟨rfl, rfl⟩

/-! ## Claim C2 -/

/-- C2: In the availability check, a resource is blocked at a grid cell
iff some existing booking on that resource's column with cancel not equal
to 1 satisfies time_from_num <= cell.time_num < time_to_num (half-open
interval on the HHMM string value); a booking with cancel = 1 never blocks
availability (removing all cancelled bookings does not change the
conflict test). -/
theorem c2_blocking_characterisation (column : ColumnRow) (cell : TimeRow)
    (rows : List ReserveRow) :
    (hasConflict column cell rows = true ↔
      ∃ r ∈ rows, r.column_no = column.id ∧ r.cancel ≠ 1 ∧
        r.time_from_num ≤ cell.time_num ∧ cell.time_num < r.time_to_num) ∧
    hasConflict column cell (rows.filter fun r => r.cancel != 1) = hasConflict column cell rows := by
  refine ⟨hasConflict_iff column cell rows, ?_⟩
  rw [Bool.eq_iff_iff, hasConflict_iff, hasConflict_iff]
  constructor
  · rintro ⟨r, hr, h1, h2, h3, h4⟩
    exact ⟨r, (List.mem_filter.mp hr).1, h1, h2, h3, h4⟩
  · rintro ⟨r, hr, h1, h2, h3, h4⟩
    exact ⟨r, List.mem_filter.mpr ⟨hr, by simpa using h2⟩, h1, h2, h3, h4⟩

/-! ## Claim C5 -/

/-- C5: In getAvailableSlots, the effective duration equals the maximum of
the caller-specified duration and the menu-declared treatment time when
both are given, equals whichever one is given when only one is given, and
defaults to 45 minutes when neither is given; the number of required
contiguous cells computed from a positive effective duration e is the
least n with e <= 15 n, i.e. ceil(e / 15). -/
theorem c5_effective_duration_and_required_slots (d e : Int) (item : TreatmentItem)
    (hd : 0 < d) (ht : 0 < item.treatment_time) (he : 0 < e) :
    effectiveSlotsDuration (some d) (some item) = max d item.treatment_time ∧
    effectiveSlotsDuration (some d) none = d ∧
    effectiveSlotsDuration none (some item) = item.treatment_time ∧
    effectiveSlotsDuration none none = 45 ∧
    e ≤ 15 * (gridRequiredSlots (some e) : Int) ∧
    (∀ m : Nat, e ≤ 15 * (m : Int) → gridRequiredSlots (some e) ≤ m) := by
  have hd0 : (d != 0) = true := by simp; omega
  have ht0 : (item.treatment_time != 0) = true := by simp; omega
  have he0 : (e != 0) = true := by simp; omega
  refine ⟨?_, ?_, ?_, ?_, ?_, ?_⟩
  · simp [effectiveSlotsDuration, hd0, ht0]
  · simp [effectiveSlotsDuration, hd0]
  · simp [effectiveSlotsDuration, ht0]
  · simp [effectiveSlotsDuration]
  · simp only [gridRequiredSlots, he0, if_true, mathCeilDiv]
    have hdm : 15 * ((-e).ediv 15) + (-e).emod 15 = -e := Int.ediv_add_emod (-e) 15
    have hr1 : 0 ≤ (-e).emod 15 := Int.emod_nonneg _ (by norm_num)
    have hr2 : (-e).emod 15 < 15 := Int.emod_lt_of_pos _ (by norm_num)
    omega
  · intro m hm
    simp only [gridRequiredSlots, he0, if_true, mathCeilDiv]
    have hdm : 15 * ((-e).ediv 15) + (-e).emod 15 = -e := Int.ediv_add_emod (-e) 15
    have hr1 : 0 ≤ (-e).emod 15 := Int.emod_nonneg _ (by norm_num)
    have hr2 : (-e).emod 15 < 15 := Int.emod_lt_of_pos _ (by norm_num)
    omega

/-! ## Claims C3 and C4: properties of every emitted SlotInfo -/

theorem mem_getAvailableSlotsForDate_extract (dateStr : String) (dd : DayData)
    (resources : Option (List String)) (duration : Option Int) (now : String) (slot : SlotInfo)
    (h : slot ∈ getAvailableSlotsForDate dateStr dd resources duration now) :
    ∃ i t, (operatingTimeRows dd)[i]? = some t ∧ slot.time = t.time_text ∧
      jsStrLt (dateStr ++ " " ++ t.time_num) now = false ∧ isBreakTime t = false ∧
      ∃ col ∈ requestedColumns (nonEmergencyColumns dd.column_rows) resources,
        isStaffAvailable col (operatingTimeRows dd) i (gridRequiredSlots duration)
          dd.reserve_rows = true := by
  simp only [getAvailableSlotsForDate, List.mem_filterMap, List.mem_range] at h
  obtain ⟨i, hi, hf⟩ := h
  refine ⟨i, ?_⟩
  split at hf
  · exact absurd hf (by simp)
  · rename_i t hcell
    split at hf
    · exact absurd hf (by simp)
    · rename_i hpast
      split at hf
      · exact absurd hf (by simp)
      · rename_i hbreak
        split at hf
        · rename_i hlen
          obtain ⟨col, hcol⟩ : ∃ col, col ∈
              (requestedColumns (nonEmergencyColumns dd.column_rows) resources).filter
                fun column => isStaffAvailable column (operatingTimeRows dd) i
                  (gridRequiredSlots duration) dd.reserve_rows := by
            apply List.exists_mem_of_length_pos
            simpa using hlen
          obtain ⟨hcolmem, hcolav⟩ := List.mem_filter.mp hcol
          injection hf with hf2
          refine ⟨t, hcell, ?_, by simpa using hpast, by simpa using hbreak,
            col, hcolmem, by simpa using hcolav⟩
          rw [← hf2]
        · exact absurd hf (by simp)

/-- C3: For every SlotInfo emitted by the availability scan and every one
of the required contiguous 15-minute cells starting at its grid index,
the cell exists, is not a break-time cell, and consecutive cells in that
window are exactly 15 minutes apart. -/
theorem c3_emitted_window_no_break_and_15min (dateStr : String) (dd : DayData)
    (resources : Option (List String)) (duration : Option Int) (now : String) (slot : SlotInfo)
    (hmem : slot ∈ getAvailableSlotsForDate dateStr dd resources duration now) :
    ∃ i t, (operatingTimeRows dd)[i]? = some t ∧ slot.time = t.time_text ∧
      isBreakTime t = false ∧
      ∀ k, k < gridRequiredSlots duration →
        ∃ u, (operatingTimeRows dd)[i + k]? = some u ∧ isBreakTime u = false ∧
          (k + 1 < gridRequiredSlots duration →
            ∃ v mu mv, (operatingTimeRows dd)[i + k + 1]? = some v ∧
              timeRowToMinutes u = some mu ∧ timeRowToMinutes v = some mv ∧ mv - mu = 15) := by
  obtain ⟨i, t, hcell, htime, -, hbreak, col, -, hav⟩ :=
    mem_getAvailableSlotsForDate_extract dateStr dd resources duration now slot hmem
  obtain ⟨hcons, -⟩ := isStaffAvailable_spec col (operatingTimeRows dd) i
    (gridRequiredSlots duration) dd.reserve_rows hav
  exact ⟨i, t, hcell, htime, hbreak,
    areSlotsConsecutive_spec (gridRequiredSlots duration) (operatingTimeRows dd) i hcons⟩

/-- C4: Every SlotInfo emitted by the scan of one day corresponds to an
operating-grid cell whose date-plus-HHMM string is at or after the current
Asia/Tokyo wall-clock string at scan time; cells sorting before the
current minute are never emitted. -/
theorem c4_emitted_not_in_past (dateStr : String) (dd : DayData)
    (resources : Option (List String)) (duration : Option Int) (now : String) (slot : SlotInfo)
    (hmem : slot ∈ getAvailableSlotsForDate dateStr dd resources duration now) :
    ∃ t ∈ operatingTimeRows dd, slot.time = t.time_text ∧
      now ≤ dateStr ++ " " ++ t.time_num := by
  obtain ⟨i, t, hcell, htime, hpast, -, -⟩ :=
    mem_getAvailableSlotsForDate_extract dateStr dd resources duration now slot hmem
  exact ⟨t, List.getElem?_mem hcell, htime, (jsStrLt_eq_false_iff _ _).mp hpast⟩

/-! ## Claim C6 (corrected): the bounded update retry -/

/-- C6 (amended): When an update submission is rejected with a message
containing 別の予約 (collision with another booking) and a desired new
date or time was requested, at most one bounded retry is performed, and
the free-resource search of that retry applies the same menu-based
eligibility narrowing (findAvailableStaff is called with the menu):
exactly when that search yields a truthy column the reservation is
resubmitted once and the second response is terminal; when it yields no
column (or column 0) the operation fails without any resubmission. -/
theorem c6_amended_bounded_retry_with_menu_filter (env : UpdateEnv) (date time phone : String)
    (desired : Option DesiredSlot) (menu : Option MenuInfo) (rid : String) (cno : Int)
    (hfound : env.foundReservation = some (rid, cno))
    (helig : updateEligibilityFails env menu time cno = false)
    (hconf : env.firstResponse.confirmation = none)
    (hres : env.firstResponse.result = false)
    (hmsg : jsIncludes (messageOrDefault env.firstResponse.message "予約更新に失敗しました")
      "別の予約" = true)
    (hdes : (strTruthy (desired.bind DesiredSlot.date) ||
      strTruthy (desired.bind DesiredSlot.time)) = true) :
    (updateReservation env date time desired phone menu).submitCount ≤ 2 ∧
    (∀ sid : Int,
      findAvailableStaff env.retryDayData env.treatmentItems
          (jsStrOr (desired.bind DesiredSlot.time) time)
          (((findTreatmentItem env.treatmentItems menu).map TreatmentItem.treatment_time).getD 45)
          menu = some sid →
      sid ≠ 0 →
      (updateReservation env date time desired phone menu).submitCount = 2 ∧
      (updateReservation env date time desired phone menu).result =
        (if env.retryResponse.result then OpOutcome.ok rid
         else OpOutcome.err (messageOrDefault env.retryResponse.message
           "予約更新に失敗しました（再試行後）"))) ∧
    ((findAvailableStaff env.retryDayData env.treatmentItems
        (jsStrOr (desired.bind DesiredSlot.time) time)
        (((findTreatmentItem env.treatmentItems menu).map TreatmentItem.treatment_time).getD 45)
        menu = none ∨
      findAvailableStaff env.retryDayData env.treatmentItems
        (jsStrOr (desired.bind DesiredSlot.time) time)
        (((findTreatmentItem env.treatmentItems menu).map TreatmentItem.treatment_time).getD 45)
        menu = some 0) →
      (updateReservation env date time desired phone menu).submitCount = 1 ∧
      (updateReservation env date time desired phone menu).result =
        OpOutcome.err (messageOrDefault env.firstResponse.message "予約更新に失敗しました" ++
          "（空いている担当者が見つかりませんでした）")) := by
  refine ⟨?_, ?_, ?_⟩
  · cases hs : findAvailableStaff env.retryDayData env.treatmentItems
        (jsStrOr (desired.bind DesiredSlot.time) time)
        (((findTreatmentItem env.treatmentItems menu).map TreatmentItem.treatment_time).getD 45)
        menu with
    | none => simp [updateReservation, hfound, helig, hconf, hres, hmsg, hdes, hs]
    | some sid =>
      by_cases h0 : sid = 0
      · subst h0
        simp [updateReservation, hfound, helig, hconf, hres, hmsg, hdes, hs]
      · have h0b : (sid != 0) = true := by simpa using h0
        cases hr : env.retryResponse.result <;>
          simp [updateReservation, hfound, helig, hconf, hres, hmsg, hdes, hs, h0b, hr]
  · intro sid hs h0
    have h0b : (sid != 0) = true := by simpa using h0
    cases hr : env.retryResponse.result <;>
      simp [updateReservation, hfound, helig, hconf, hres, hmsg, hdes, hs, h0b, hr]
  · intro hsor
    rcases hsor with hs | hs <;>
      simp [updateReservation, hfound, helig, hconf, hres, hmsg, hdes, hs]

/-! ## Claim C7 (corrected): a detected double-booking during update is
reported as failed, not conflict -/

/-- C7 (amended): For every update request whose submission the remote
rejects with a double-booking message (containing 別の予約), when the
bounded retry also fails (or does not apply), the ReservationResult
returned by the update arm of processReservations has status failed (the
conflict status is produced only by the create arm). -/
theorem c7_amended_update_double_booking_reports_failed (env : UpdateEnv)
    (req : ReservationRequest) (rid : String) (cno : Int)
    (hfound : env.foundReservation = some (rid, cno))
    (helig : updateEligibilityFails env req.menu req.slot.start_at cno = false)
    (hconf : env.firstResponse.confirmation = none)
    (hres : env.firstResponse.result = false)
    (hmsg : jsIncludes (messageOrDefault env.firstResponse.message "予約更新に失敗しました")
      "別の予約" = true)
    (hretry : env.retryResponse.result = false) :
    (processUpdateOne env req).result.status = "failed" := by
  have hout : ∃ m, (updateReservation env req.slot.date req.slot.start_at req.slot.desired
      req.customer.phone req.menu).result = OpOutcome.err m := by
    by_cases hdes : (strTruthy (req.slot.desired.bind DesiredSlot.date) ||
        strTruthy (req.slot.desired.bind DesiredSlot.time)) = true
    · cases hs : findAvailableStaff env.retryDayData env.treatmentItems
          (jsStrOr (req.slot.desired.bind DesiredSlot.time) req.slot.start_at)
          (((findTreatmentItem env.treatmentItems req.menu).map
            TreatmentItem.treatment_time).getD 45) req.menu with
      | none =>
        exact ⟨messageOrDefault env.firstResponse.message "予約更新に失敗しました" ++
          "（空いている担当者が見つかりませんでした）",
          by simp [updateReservation, hfound, helig, hconf, hres, hmsg, hdes, hs]⟩
      | some sid =>
        by_cases h0 : sid = 0
        · subst h0
          exact ⟨messageOrDefault env.firstResponse.message "予約更新に失敗しました" ++
            "（空いている担当者が見つかりませんでした）",
            by simp [updateReservation, hfound, helig, hconf, hres, hmsg, hdes, hs]⟩
        · have h0b : (sid != 0) = true := by simpa using h0
          exact ⟨messageOrDefault env.retryResponse.message "予約更新に失敗しました（再試行後）", by
            simp [updateReservation, hfound, helig, hconf, hres, hmsg, hdes, hs, h0b, hretry]⟩
    · have hdes2 : (strTruthy (req.slot.desired.bind DesiredSlot.date) ||
          strTruthy (req.slot.desired.bind DesiredSlot.time)) = false := by
        simpa using hdes
      exact ⟨messageOrDefault env.firstResponse.message "予約更新に失敗しました",
        by simp [updateReservation, hfound, helig, hconf, hres, hdes2]⟩
  obtain ⟨m, hm⟩ := hout
  simp [processUpdateOne, hm]

/-! ## Claim C8 (corrected): the confirmation field on the mutating paths -/

/-- C8 (amended): createReservation and updateReservation treat a remote
response with a non-null confirmation field as a failure carrying the
joined confirmation messages, even when the result flag is true; the
cancel and delete path never consults the confirmation field and succeeds
whenever the result flag is true. -/
theorem c8_amended_confirmation_handling (resp : ApiResp) (msgs : List String)
    (env : UpdateEnv) (date time phone opName rid : String) (cno : Int)
    (desired : Option DesiredSlot) (menu : Option MenuInfo)
    (hconf : resp.confirmation = some msgs)
    (hfound : env.foundReservation = some (rid, cno))
    (helig : updateEligibilityFails env menu time cno = false)
    (hconfu : env.firstResponse.confirmation = some msgs) :
    createSubmitError resp = some (joinSpace msgs) ∧
    (updateReservation env date time desired phone menu).result =
      OpOutcome.err (joinSpace msgs) ∧
    (∀ r : ApiResp, r.result = true →
      cancelOrDeleteOutcome (some (rid, cno)) r opName date time phone = OpOutcome.ok rid) := by
  refine ⟨?_, ?_, ?_⟩
  · simp [createSubmitError, hconf]
  · simp [updateReservation, hfound, helig, hconfu]
  · intro r hr
    simp [cancelOrDeleteOutcome, hr]

/-! ## Claim C9 (corrected): session publication order in
ensureSessionManager -/

/-- C9 (amended): On a credential change, ensureSessionManager assigns the
newly constructed session manager as current before calling start().  On
start() success the started manager is current and the new credentials
are stored.  If start() throws, the error propagates to the caller and
the stored credentials are not updated, but the current session is the
new (unstarted) manager rather than none. -/
theorem c9_amended_publication_before_start (st : ServerState) (c : Credentials)
    (hch : hasCredentialsChanged st c = true) :
    ensureSessionManager st c true =
      ({ sessionManager := some { creds := c, started := true },
         currentCredentials := some c }, true) ∧
    ensureSessionManager st c false =
      ({ sessionManager := some { creds := c, started := false },
         currentCredentials := st.currentCredentials }, false) := by
  constructor <;> simp [ensureSessionManager, hch]

/-! ## Claim C10: an unmatched external_menu_id with the empty menu name
resolves to the first treatment item -/

/-- C10: If findTreatmentItem is called with an external_menu_id matching
no item id and the empty menu_name (which GET /slots produces whenever
only external_menu_id is supplied), it returns the first item of the
remote list, because every title contains the empty string; the
effective-duration computation then uses that first item. -/
theorem c10_empty_menu_name_matches_first_item (items : List TreatmentItem) (eid : String)
    (first : TreatmentItem) (duration : Option Int)
    (hhead : items.head? = some first)
    (hid : ∀ item ∈ items, toString item.id ≠ eid)
    (heid : eid ≠ "") :
    slotsMenuParam (some eid) none = some ⟨eid, ""⟩ ∧
    findTreatmentItem items (slotsMenuParam (some eid) none) = some first ∧
    effectiveSlotsDuration duration (findTreatmentItem items (slotsMenuParam (some eid) none)) =
      effectiveSlotsDuration duration (some first) := by
  have hparam : slotsMenuParam (some eid) none = some ⟨eid, ""⟩ := by
    simp [slotsMenuParam, strTruthy, heid]
  have hById : items.find? (fun item => toString item.id == eid) = none := by
    rw [List.find?_eq_none]
    intro it hit
    simp [hid it hit]
  have hname : items.find? (fun item => jsIncludes item.title "") = some first := by
    cases items with
    | nil => simp at hhead
    | cons a t =>
      have hfa : List.find? (fun item => jsIncludes item.title "") (a :: t) = some a := by
        simp [List.find?, jsIncludes_empty]
      rw [hfa]
      simpa using hhead
  have hfind : findTreatmentItem items (some (⟨eid, ""⟩ : MenuInfo)) = some first := by
    simp only [findTreatmentItem]
    rw [if_neg (by simp [heid]), if_pos (by simp [heid]), hById]
    exact hname
  exact ⟨hparam, by rw [hparam]; exact hfind, by rw [hparam, hfind]⟩

/-! ## Concrete data for the witnesses and counterexamples -/

/-- A free 11:00 grid cell. -/
def cellA : TimeRow := ⟨"11", "00", "11:00", "1100", false, false⟩

/-- A free 11:15 grid cell. -/
def cellB : TimeRow := ⟨"11", "15", "11:15", "1115", false, false⟩

/-- A free 11:30 grid cell. -/
def cellC : TimeRow := ⟨"11", "30", "11:30", "1130", false, false⟩

/-- Resource column 1. -/
def drOne : ColumnRow := ⟨1, "Dr1"⟩

/-- Resource column 2. -/
def drTwo : ColumnRow := ⟨2, "Dr2"⟩

/-- An active booking on column 1 over [1100, 1130). -/
def bookedOnOne : ReserveRow := ⟨22, 1, 0, "11:00", "11:30", "1100", "1130"⟩

/-- An active booking on column 2 over [1100, 1130). -/
def bookedOnTwo : ReserveRow := ⟨21, 2, 0, "11:00", "11:30", "1100", "1130"⟩

/-- A day with two columns where only column 2 is booked at 11:00. -/
def dayW : DayData := ⟨[bookedOnTwo], [drOne, drTwo], [cellA, cellB], 9, 0, 18, 0⟩

/-- A three-cell variant of dayW. -/
def dayWide : DayData := ⟨[bookedOnTwo], [drOne, drTwo], [cellA, cellB, cellC], 9, 0, 18, 0⟩

/-- A day where both columns are booked at 11:00. -/
def dayFullW : DayData :=
  ⟨[bookedOnOne, bookedOnTwo], [drOne, drTwo], [cellA, cellB], 9, 0, 18, 0⟩

/-- A treatment item (30 minutes, only column 2 eligible). -/
def menuItemW : TreatmentItem := ⟨1, "クリーニング", "#abc", 30, [2], ["Dr2"]⟩

/-- A second treatment item. -/
def menuItemW2 : TreatmentItem := ⟨2, "ホワイトニング", "#fff", 60, [1], ["Dr1"]⟩

/-- A create request at 11:00 with preference any (no staff). -/
def reqCreateW : ReservationRequest :=
  { reservation_id := "r1"
    operation := "create"
    slot := ⟨"2026-01-10", "11:00", none, some 30, none⟩
    customer := ⟨none, "Taro", "09011112222"⟩
    menu := none
    staff := none }

/-- An update request whose desired time is 11:00. -/
def reqUpdateW : ReservationRequest :=
  { reservation_id := "u1"
    operation := "update"
    slot := ⟨"2026-01-10", "11:00", none, none, some ⟨none, some "11:00"⟩⟩
    customer := ⟨none, "", "09011112222"⟩
    menu := none
    staff := none }

/-- An update environment where the first submission is rejected with a
double-booking message and the retry search is blocked for the only
menu-eligible column, while column 1 would be free if the menu narrowing
were ignored. -/
def envRetryBlocked : UpdateEnv :=
  { treatmentItems := [menuItemW]
    dayData := some dayW
    retryDayData := some dayW
    foundReservation := some ("10", 2)
    firstResponse := ⟨false, none, some ["別の予約と重複しています"]⟩
    retryResponse := ⟨true, none, none⟩ }

/-- An update environment where the retry search succeeds but the
resubmission is rejected again. -/
def envRetryFails : UpdateEnv :=
  { treatmentItems := []
    dayData := some dayWide
    retryDayData := some dayWide
    foundReservation := some ("10", 2)
    firstResponse := ⟨false, none, some ["別の予約と重複しています"]⟩
    retryResponse := ⟨false, none, some ["別の予約と重複しています"]⟩ }

/-- The menu selection matching menuItemW by external id. -/
def menuSelW : MenuInfo := ⟨"1", ""⟩

/-- The desired slot of the retry counterexample. -/
def desiredW : DesiredSlot := ⟨none, some "11:00"⟩

/-- A remote response with result true and a non-null confirmation. -/
def respConfirmTrue : ApiResp := ⟨true, some ["診療時間外の予約です"], none⟩

/-- Credentials used by the session counterexample. -/
def credsW : Credentials := ⟨"user1", "pass1"⟩

/-- The SlotInfo emitted at 11:00 by the scan of dayW with duration 30. -/
def slotW : SlotInfo := ⟨"2026-01-10", "11:00", 30, 1, "Dr1"⟩

/-! ## Witnesses and counterexamples -/

/-- Witness for C1 at concrete data: with preference any and both columns
booked at 11:00, the create arm reports conflict/NO_AVAILABLE_STAFF. -/
theorem c1_witness :
    (processCreateOne (some dayFullW) [] reqCreateW (fun _ => OpOutcome.ok "9")).result.status =
      "conflict" ∧
    (processCreateOne (some dayFullW) [] reqCreateW
      (fun _ => OpOutcome.ok "9")).result.error_code = some "NO_AVAILABLE_STAFF" := by
  refine (c1_create_any_no_overlap_or_conflict dayFullW [] reqCreateW (fun _ => OpOutcome.ok "9")
    (Or.inl (by decide))).2 0 (by decide) ?_
  intro col hcol
  have hcols : staffSearchColumns dayFullW [] reqCreateW.menu = [drOne, drTwo] := by decide
  rw [hcols] at hcol
  simp only [List.mem_cons, List.not_mem_nil, or_false] at hcol
  rcases hcol with rfl | rfl
  · exact ⟨0, by decide, cellA, by decide, bookedOnOne, by decide, by decide, by decide,
      (jsStrGe_iff _ _).mp (by decide), (jsStrLt_iff _ _).mp (by decide)⟩
  · exact ⟨0, by decide, cellA, by decide, bookedOnTwo, by decide, by decide, by decide,
      (jsStrGe_iff _ _).mp (by decide), (jsStrLt_iff _ _).mp (by decide)⟩

/-- Witness for C2 at concrete data. -/
theorem c2_witness :
    (hasConflict drOne cellA [bookedOnOne] = true ↔
      ∃ r ∈ [bookedOnOne], r.column_no = drOne.id ∧ r.cancel ≠ 1 ∧
        r.time_from_num ≤ cellA.time_num ∧ cellA.time_num < r.time_to_num) ∧
    hasConflict drOne cellA ([bookedOnOne].filter fun r => r.cancel != 1) =
      hasConflict drOne cellA [bookedOnOne] :=
  c2_blocking_characterisation drOne cellA [bookedOnOne]

/-- Witness for C3: the 11:00 slot emitted for dayW has a break-free,
15-minute-spaced window. -/
theorem c3_witness :
    ∃ i t, (operatingTimeRows dayW)[i]? = some t ∧ slotW.time = t.time_text ∧
      isBreakTime t = false ∧
      ∀ k, k < gridRequiredSlots (some 30) →
        ∃ u, (operatingTimeRows dayW)[i + k]? = some u ∧ isBreakTime u = false ∧
          (k + 1 < gridRequiredSlots (some 30) →
            ∃ v mu mv, (operatingTimeRows dayW)[i + k + 1]? = some v ∧
              timeRowToMinutes u = some mu ∧ timeRowToMinutes v = some mv ∧ mv - mu = 15) :=
  c3_emitted_window_no_break_and_15min "2026-01-10" dayW none (some 30) "2026-01-09 0000" slotW
    (by decide)

/-- Witness for C4: the emitted slot is not in the past. -/
theorem c4_witness :
    ∃ t ∈ operatingTimeRows dayW, slotW.time = t.time_text ∧
      "2026-01-09 0000" ≤ "2026-01-10" ++ " " ++ t.time_num :=
  c4_emitted_not_in_past "2026-01-10" dayW none (some 30) "2026-01-09 0000" slotW (by decide)

/-- Witness for C5 at concrete durations. -/
theorem c5_witness :
    effectiveSlotsDuration (some 30) (some menuItemW) = max 30 menuItemW.treatment_time ∧
    effectiveSlotsDuration (some 30) none = 30 ∧
    effectiveSlotsDuration none (some menuItemW) = menuItemW.treatment_time ∧
    effectiveSlotsDuration none none = 45 ∧
    (40 : Int) ≤ 15 * (gridRequiredSlots (some 40) : Int) ∧
    (∀ m : Nat, (40 : Int) ≤ 15 * (m : Int) → gridRequiredSlots (some 40) ≤ m) :=
  c5_effective_duration_and_required_slots 30 40 menuItemW (by decide) (by decide) (by decide)

/-- Counterexample for C6 as stated: after a double-booking rejection with
a desired new time, column 1 is free at the new time when the menu
eligibility narrowing is ignored, yet the code performs no resubmission
(submit count stays 1) because its retry search applies the menu
narrowing and finds nothing. -/
theorem c6_counterexample :
    (updateReservation envRetryBlocked "2026-01-10" "10:00" (some desiredW) "09011112222"
      (some menuSelW)).submitCount = 1 ∧
    (updateReservation envRetryBlocked "2026-01-10" "10:00" (some desiredW) "09011112222"
      (some menuSelW)).result =
      OpOutcome.err "別の予約と重複しています（空いている担当者が見つかりませんでした）" ∧
    findAvailableStaff (some dayW) [menuItemW] "11:00" 30 none = some 1 := by
  decide

/-- Witness for the amended C6 at concrete data (the no-eligible-resource
branch of the bounded retry). -/
theorem c6_witness :
    (updateReservation envRetryBlocked "2026-01-10" "10:00" (some desiredW) "09011112222"
      (some menuSelW)).submitCount = 1 ∧
    (updateReservation envRetryBlocked "2026-01-10" "10:00" (some desiredW) "09011112222"
      (some menuSelW)).result =
      OpOutcome.err (messageOrDefault envRetryBlocked.firstResponse.message
        "予約更新に失敗しました" ++ "（空いている担当者が見つかりませんでした）") :=
  (c6_amended_bounded_retry_with_menu_filter envRetryBlocked "2026-01-10" "10:00"
    "09011112222" (some desiredW) (some menuSelW) "10" 2 (by decide) (by decide) (by decide)
    (by decide) (by decide) (by decide)).2.2 (Or.inl (by decide))

/-- Counterexample for C7 as stated: an update whose submission is
rejected for a double-booking, and whose bounded retry also fails, is
reported with status failed, not conflict. -/
theorem c7_counterexample :
    (processUpdateOne envRetryFails reqUpdateW).result.status = "failed" ∧
    (processUpdateOne envRetryFails reqUpdateW).result.status ≠ "conflict" := by
  decide

/-- Witness for the amended C7 at concrete data. -/
theorem c7_witness :
    (processUpdateOne envRetryFails reqUpdateW).result.status = "failed" :=
  c7_amended_update_double_booking_reports_failed envRetryFails reqUpdateW "10" 2
    (by decide) (by decide) (by decide) (by decide) (by decide) (by decide)

/-- Counterexample for C8 as stated: the cancel/delete path returns
success for a response whose confirmation is non-null. -/
theorem c8_counterexample :
    respConfirmTrue.confirmation ≠ none ∧ respConfirmTrue.result = true ∧
    cancelOrDeleteOutcome (some ("7", 1)) respConfirmTrue "キャンセル" "2026-01-10" "11:00"
      "09011112222" = OpOutcome.ok "7" := by
  decide

/-- Witness for the amended C8 at concrete data. -/
theorem c8_witness :
    createSubmitError respConfirmTrue = some (joinSpace ["診療時間外の予約です"]) ∧
    (updateReservation
      { treatmentItems := []
        dayData := some dayW
        retryDayData := some dayW
        foundReservation := some ("10", 2)
        firstResponse := respConfirmTrue
        retryResponse := ⟨true, none, none⟩ } "2026-01-10" "11:00" none "09011112222"
      none).result = OpOutcome.err (joinSpace ["診療時間外の予約です"]) ∧
    (∀ r : ApiResp, r.result = true →
      cancelOrDeleteOutcome (some ("10", 2)) r "キャンセル" "2026-01-10" "11:00" "09011112222" =
        OpOutcome.ok "10") :=
  c8_amended_confirmation_handling respConfirmTrue ["診療時間外の予約です"]
    { treatmentItems := []
      dayData := some dayW
      retryDayData := some dayW
      foundReservation := some ("10", 2)
      firstResponse := respConfirmTrue
      retryResponse := ⟨true, none, none⟩ } "2026-01-10" "11:00" "09011112222" "キャンセル" "10" 2
    none none (by decide) (by decide) (by decide) (by decide)

/-- Counterexample for C9 as stated: when start() fails on a first
initialization, a current session manager remains (the new, unstarted
one) instead of none. -/
theorem c9_counterexample :
    (ensureSessionManager ⟨none, none⟩ credsW false).2 = false ∧
    (ensureSessionManager ⟨none, none⟩ credsW false).1.sessionManager ≠ none := by
  decide

/-- Witness for the amended C9 at concrete data. -/
theorem c9_witness :
    ensureSessionManager ⟨none, none⟩ credsW true =
      ({ sessionManager := some { creds := credsW, started := true },
         currentCredentials := some credsW }, true) ∧
    ensureSessionManager ⟨none, none⟩ credsW false =
      ({ sessionManager := some { creds := credsW, started := false },
         currentCredentials := none }, false) :=
  c9_amended_publication_before_start ⟨none, none⟩ credsW (by decide)

/-- Witness for C10 at concrete data: external id 99 matches nothing and
the empty menu name resolves to the first item of the list. -/
theorem c10_witness :
    slotsMenuParam (some "99") none = some ⟨"99", ""⟩ ∧
    findTreatmentItem [menuItemW, menuItemW2] (slotsMenuParam (some "99") none) =
      some menuItemW ∧
    effectiveSlotsDuration (some 20)
      (findTreatmentItem [menuItemW, menuItemW2] (slotsMenuParam (some "99") none)) =
      effectiveSlotsDuration (some 20) (some menuItemW) :=
  c10_empty_menu_name_matches_first_item [menuItemW, menuItemW2] "99" menuItemW (some 20)
    (by decide) (by decide) (by decide)

end EasyApo
